import Mathlib

/-!
Verification of the resource-adapter pattern instantiated by
`internal/service/sesv2/tenant.go`: the SESv2 Tenant resource
(plugin-framework style) and the Clean Rooms Configured Table resource
(SDK-v2 style) that shares the file.

The embedding is shallow: every remote call site is modelled by passing in
the response the remote API would produce (for claims that quantify over
"existing remote resources" the remote side is a finite list of objects and
the server functions compute the API responses from it).  Go `*T` pointers
become `Option T`; a Go nil-pointer dereference (a runtime panic) is made
explicit as a dedicated `crashed` outcome.
-/

namespace TenantAdapter

/-- Errors produced by the remote AWS API transport: the typed
`NotFoundException` / `ResourceNotFoundException` of the two services, or any
other service error. -/
inductive AWSError where
  | notFoundException
  | serviceError (msg : String)
deriving DecidableEq

/-- Test used by `errs.IsA[*awstypes.NotFoundException]` at the call sites in
the source: whether the transport error is the typed not-found exception. -/
def isNotFoundException : AWSError → Bool
  | .notFoundException => true
  | .serviceError _ => false

/-- Errors as returned by the finder helpers of the adapter:
`retryNotFound` models the `retry.NotFoundError` wrapper that
`FindTenantByName` builds, `emptyResult` models
`tfresource.NewEmptyResultError`, and `rawError` is an untranslated
transport error passed through unchanged (what `findConfiguredTableByID`
returns on any call error). -/
inductive TFError where
  | retryNotFound (last : AWSError)
  | emptyResult
  | rawError (e : AWSError)
deriving DecidableEq

/-- Modelled from the spec: `tfresource.NotFound` (repository helper, not
under `src/`).  Per the error taxonomy (spec section 7) the recoverable
`NotFound` kind is the adapter-level typed wrapper that finders construct —
which is exactly why `FindTenantByName` in the source wraps the transport
`NotFoundException` into a `retry.NotFoundError` before returning it.  A raw
transport error is a `RemoteError` in the taxonomy and is not recognised. -/
def tfresourceNotFound : TFError → Bool
  | .retryNotFound _ => true
  | .emptyResult => false
  | .rawError _ => false

/-- Go `time.Time` restricted to the UTC wall-clock fields that RFC3339
formatting of the timestamps in this file uses. -/
structure GoTime where
  year : Nat
  month : Nat
  day : Nat
  hour : Nat
  minute : Nat
  second : Nat
deriving DecidableEq

/-- The Go zero time, `0001-01-01T00:00:00Z`. -/
def zeroTime : GoTime := ⟨1, 1, 1, 0, 0, 0⟩

def pad2 (n : Nat) : String :=
  if n < 10 then "0" ++ toString n else toString n

def pad4 (n : Nat) : String :=
  if n < 10 then "000" ++ toString n
  else if n < 100 then "00" ++ toString n
  else if n < 1000 then "0" ++ toString n
  else toString n

/-- `time.Time.Format(time.RFC3339)` for a UTC time. -/
def formatRFC3339 (t : GoTime) : String :=
  pad4 t.year ++ "-" ++ pad2 t.month ++ "-" ++ pad2 t.day ++ "T" ++
    pad2 t.hour ++ ":" ++ pad2 t.minute ++ ":" ++ pad2 t.second ++ "Z"

/-- `aws.ToString`: dereference a `*string`, `""` when nil. -/
def awsToString (s : Option String) : String := s.getD ""

/-- `aws.ToTime`: dereference a `*time.Time`, the zero time when nil. -/
def awsToTime (t : Option GoTime) : GoTime := t.getD zeroTime

/-- `types.String.ValueString()`: the value, `""` when the attribute is
null/unknown. -/
def valueString (s : Option String) : String := s.getD ""

/-- `awstypes.Tenant` (AWS SDK): all fields are pointers. -/
structure Tenant where
  tenantName : Option String
  tenantId : Option String
  tenantArn : Option String
  createdTimestamp : Option GoTime
  sendingStatus : Option String
deriving DecidableEq

/-- `sesv2.GetTenantOutput` with its `Tenant *awstypes.Tenant` field. -/
structure GetTenantOutput where
  tenant : Option Tenant
deriving DecidableEq

/-- `FindTenantByName` (tenant.go lines 440-462) as a pure function of the
`GetTenant` response (`.ok none` is a nil `*GetTenantOutput`): the typed
not-found transport error is wrapped into `retry.NotFoundError`, a nil or
tenant-less output becomes the empty-result error, any other error is
passed along, and otherwise the tenant is returned. -/
def FindTenantByName (resp : Except AWSError (Option GetTenantOutput)) :
    Except TFError Tenant :=
  match resp with
  | .error e =>
      if isNotFoundException e then .error (.retryNotFound e)
      else .error (.rawError e)
  | .ok none => .error .emptyResult
  | .ok (some out) =>
      match out.tenant with
      | none => .error .emptyResult
      | some t => .ok t

/-- The remote SESv2 side: `GetTenant` keyed by tenant name over a finite
list of existing tenants; a name matching no tenant yields the typed
`NotFoundException`. -/
def getTenantServer (remote : List Tenant) (name : String) :
    Except AWSError (Option GetTenantOutput) :=
  match remote.find? (fun t => awsToString t.tenantName == name) with
  | some t => .ok (some ⟨some t⟩)
  | none => .error .notFoundException

/-- `resourceTenantModel` (tenant.go lines 476-485): the desired-state
record of the Tenant resource.  `types.String` is `Option String`
(`none` = null). -/
structure resourceTenantModel where
  arn : Option String
  createdTimestamp : Option String
  id : Option String
  sendingStatus : Option String
  tags : List (String × String)
  tagsAll : List (String × String)
  tenantName : Option String
deriving DecidableEq

def emptyTenantModel : resourceTenantModel :=
  { arn := none, createdTimestamp := none, id := none, sendingStatus := none,
    tags := [], tagsAll := [], tenantName := none }

/-- Modelled from the spec: `flex.Flatten` (repository helper, not under
`src/`) maps remote fields onto the local record by field name, with ignored
fields skipped and unmapped remote fields silently dropped (spec section
4.1, field-mapping sub-algorithm); a field present (non-nil) on the remote
side overwrites the local one.  This is the call at tenant.go line 182:
no field-name prefix and ignore list `CreatedTimestamp, Tags`, so the remote
names `TenantName` and `SendingStatus` map onto the model fields of the same
name while `TenantId` and `TenantArn` match no local field name (`ID`,
`ARN`) and are dropped. -/
def flattenTenantIntoModel (t : Tenant) (m : resourceTenantModel) :
    resourceTenantModel :=
  { m with
      tenantName := match t.tenantName with
        | some v => some v
        | none => m.tenantName
      sendingStatus := match t.sendingStatus with
        | some v => some v
        | none => m.sendingStatus }

/-- Possible outcomes of the framework `Read` method: state set, state
removed (resource gone), a diagnostics error, or a Go runtime panic
(`crashed`). -/
inductive TenantReadOutcome where
  | ok (state : resourceTenantModel)
  | removed
  | errored
  | crashed
deriving DecidableEq

def TenantReadOutcome.getState? : TenantReadOutcome → Option resourceTenantModel
  | .ok s => some s
  | _ => none

/-- `resourceTenant.Read` (tenant.go lines 141-189).  The statement
`fmt.Printf("DEBUG :::: FindTenantByName == %v\n", *out.TenantName)` at line
167 runs before the not-found check: when the finder returned an error its
result `out` is nil and the dereference panics; when it succeeded but the
tenant's `TenantName` pointer is nil the inner dereference panics.  Only
after that do the not-found/error branches and the state updates of the
source run. -/
def resourceTenantRead (remote : List Tenant) (state : resourceTenantModel) :
    TenantReadOutcome :=
  match FindTenantByName (getTenantServer remote (valueString state.tenantName)) with
  | .error _ => .crashed
  | .ok t =>
      match t.tenantName with
      | none => .crashed
      | some _ =>
          let state1 := { state with
            createdTimestamp := some (formatRFC3339 (awsToTime t.createdTimestamp)) }
          .ok (flattenTenantIntoModel t state1)

/-- `sesv2.CreateTenantOutput`: pointer fields of the create response. -/
structure CreateTenantOutput where
  tenantName : Option String
  tenantId : Option String
  tenantArn : Option String
  createdTimestamp : Option GoTime
  sendingStatus : Option String
deriving DecidableEq

/-- Modelled from the spec: `flex.Flatten` at tenant.go line 129 — field
name prefix `Tenant` (source comment line 111: the prefix lets `TenantId`
map to `ID`), ignore list `CreatedTimestamp, Tags`.  So `TenantId` maps to
`ID`, `TenantArn` to `ARN`, `TenantName` and `SendingStatus` to the fields
of the same name; a nil remote field leaves the local field unchanged. -/
def flattenCreateOutput (out : CreateTenantOutput) (m : resourceTenantModel) :
    resourceTenantModel :=
  { m with
      id := match out.tenantId with
        | some v => some v
        | none => m.id
      arn := match out.tenantArn with
        | some v => some v
        | none => m.arn
      tenantName := match out.tenantName with
        | some v => some v
        | none => m.tenantName
      sendingStatus := match out.sendingStatus with
        | some v => some v
        | none => m.sendingStatus }

/-- Outcome of the framework `Create` method; only `.ok` carries a record
written to state (every error path in the source returns before
`resp.State.Set`). -/
inductive TenantCreateOutcome where
  | ok (state : resourceTenantModel)
  | errored (msg : String)
deriving DecidableEq

/-- `resourceTenant.Create` (tenant.go lines 97-139) as a function of the
`CreateTenant` response (`.ok none` is a nil `*CreateTenantOutput`): a call
error or a nil output / nil `TenantId` aborts with an error before any state
write; otherwise the response is flattened into the plan and `ID`, `ARN`
and `CreatedTimestamp` (RFC3339) are set explicitly from the output. -/
def resourceTenantCreate (resp : Except AWSError (Option CreateTenantOutput))
    (plan : resourceTenantModel) : TenantCreateOutcome :=
  match resp with
  | .error _ => .errored "create call failed"
  | .ok none => .errored "empty output"
  | .ok (some out) =>
      match out.tenantId with
      | none => .errored "empty output"
      | some tid =>
          let p1 := flattenCreateOutput out plan
          .ok { p1 with
                  id := some tid,
                  arn := some (awsToString out.tenantArn),
                  createdTimestamp :=
                    some (formatRFC3339 (awsToTime out.createdTimestamp)) }

/-- Outcome of a `Delete` method. -/
inductive DeleteOutcome where
  | ok
  | errored
deriving DecidableEq

/-- `resourceTenant.Delete` (tenant.go lines 267-318) as a function of the
`DeleteTenant` response: a typed not-found transport error is swallowed
(success); any other error surfaces. -/
def resourceTenantDelete (resp : Except AWSError Unit) : DeleteOutcome :=
  match resp with
  | .ok _ => .ok
  | .error e => if isNotFoundException e then .ok else .errored

/-- The remote SESv2 side of `DeleteTenant`: deleting an existing tenant
succeeds and removes it, deleting a missing one yields the typed
`NotFoundException`. -/
def deleteTenantServer (remote : List Tenant) (name : String) :
    Except AWSError Unit × List Tenant :=
  if remote.any (fun t => awsToString t.tenantName == name) then
    (.ok (), remote.filter (fun t => awsToString t.tenantName != name))
  else
    (.error .notFoundException, remote)

/-- Two `resourceTenant.Delete` calls in sequence against the same remote
side, returning both outcomes. -/
def tenantDeleteTwice (remote : List Tenant) (name : String) :
    DeleteOutcome × DeleteOutcome :=
  let r1 := deleteTenantServer remote name
  let first := resourceTenantDelete r1.1
  let r2 := deleteTenantServer r1.2 name
  (first, resourceTenantDelete r2.1)

/-- `resourceTenant.ImportState` (tenant.go lines 327-329):
`ImportStatePassthroughID` into the `id` attribute — the imported state has
only `id` set, every other attribute null. -/
def tenantImportState (importId : String) : resourceTenantModel :=
  { emptyTenantModel with id := some importId }

/-- Import followed by the Read the orchestration engine runs next. -/
def tenantImportThenRead (remote : List Tenant) (importId : String) :
    TenantReadOutcome :=
  resourceTenantRead remote (tenantImportState importId)

end TenantAdapter

namespace ConfiguredTableAdapter

open TenantAdapter

/-- `types.GlueTableReference` of the Clean Rooms SDK (string pointers
collapsed to values: both are always set by the expander in the source). -/
structure GlueTableReference where
  databaseName : String
  tableName : String
deriving DecidableEq

/-- One element of the `table_reference` list attribute: a map with keys
`database_name` and `table_name` (schema at tenant.go lines 598-617). -/
structure TableReferenceElem where
  databaseName : String
  tableName : String
deriving DecidableEq

/-- The remote Clean Rooms configured-table object, with the fields the
adapter reads. -/
structure ConfiguredTable where
  id : String
  arn : String
  name : String
  description : Option String
  allowedColumns : List String
  analysisMethod : String
  createTime : String
  updateTime : String
  tableReference : Option GlueTableReference
deriving DecidableEq

/-- `cleanrooms.GetConfiguredTableOutput` with its pointer field. -/
structure GetConfiguredTableOutput where
  configuredTable : Option ConfiguredTable
deriving DecidableEq

/-- `findConfiguredTableByID` (tenant.go lines 736-751) as a pure function
of the `GetConfiguredTable` response (`.ok none` is a nil output pointer).
Unlike `FindTenantByName`, a call error is returned unchanged — the typed
not-found transport error is never translated into the `retry.NotFoundError`
wrapper; only a nil output or nil `ConfiguredTable` becomes the empty-result
error. -/
def findConfiguredTableByID
    (resp : Except AWSError (Option GetConfiguredTableOutput)) :
    Except TFError GetConfiguredTableOutput :=
  match resp with
  | .error e => .error (.rawError e)
  | .ok none => .error .emptyResult
  | .ok (some out) =>
      match out.configuredTable with
      | none => .error .emptyResult
      | some _ => .ok out

/-- The remote Clean Rooms side: `GetConfiguredTable` keyed by id over a
finite list of existing tables; an id matching no table yields the typed
not-found exception. -/
def getConfiguredTableServer (remote : List ConfiguredTable) (id : String) :
    Except AWSError (Option GetConfiguredTableOutput) :=
  match remote.find? (fun t => t.id == id) with
  | some t => .ok (some ⟨some t⟩)
  | none => .error .notFoundException

/-- The attribute record held in `schema.ResourceData` for the Configured
Table resource, one field per schema attribute (tenant.go lines 569-624). -/
structure ConfiguredTableRecord where
  allowedColumns : List String
  analysisMethod : String
  arn : String
  createTime : String
  description : String
  name : String
  tableReference : List TableReferenceElem
  tags : List (String × String)
  tagsAll : List (String × String)
  updateTime : String
deriving DecidableEq

def emptyConfiguredTableRecord : ConfiguredTableRecord :=
  { allowedColumns := [], analysisMethod := "", arn := "", createTime := "",
    description := "", name := "", tableReference := [], tags := [],
    tagsAll := [], updateTime := "" }

/-- `schema.ResourceData` during an update: the resource id plus the prior
(`oldState`) and desired (`newState`) attribute records the diff is computed
from. -/
structure ResourceData where
  id : String
  oldState : ConfiguredTableRecord
  newState : ConfiguredTableRecord
deriving DecidableEq

/-- `d.HasChanges(names.AttrDescription)`. -/
def hasChangeDescription (d : ResourceData) : Bool :=
  d.oldState.description != d.newState.description

/-- `d.HasChanges(names.AttrName)`. -/
def hasChangeName (d : ResourceData) : Bool :=
  d.oldState.name != d.newState.name

/-- `d.HasChangesExcept("tags", "tags_all")`: whether any schema attribute
other than `tags`/`tags_all` carries a planned change.  The computed-only
attributes (`arn`, `create_time`, `update_time`) never carry a planned
change, so the check ranges over the five arguments. -/
def hasChangesExceptTags (d : ResourceData) : Bool :=
  d.oldState.allowedColumns != d.newState.allowedColumns ||
  d.oldState.analysisMethod != d.newState.analysisMethod ||
  d.oldState.description != d.newState.description ||
  d.oldState.name != d.newState.name ||
  d.oldState.tableReference != d.newState.tableReference

/-- `expandTableReference` (tenant.go lines 762-770): the Go code indexes
`data[0]` unconditionally, so on an empty list it panics with an
out-of-range index — modelled as `none`.  On a non-empty list it builds the
Glue table reference from the first element. -/
def expandTableReference (data : List TableReferenceElem) :
    Option GlueTableReference :=
  match data with
  | [] => none
  | x :: _ => some ⟨x.databaseName, x.tableName⟩

/-- `flattenTableReference` (tenant.go lines 772-783): a Glue member becomes
a one-element list, anything else (including nil) the default branch,
returning nil. -/
def flattenTableReference (tr : Option GlueTableReference) :
    List TableReferenceElem :=
  match tr with
  | some g => [⟨g.databaseName, g.tableName⟩]
  | none => []

/-- `expandAnalysisMethod` (tenant.go lines 753-760). -/
def expandAnalysisMethod (m : String) : Except String String :=
  if m == "DIRECT_QUERY" then .ok "DIRECT_QUERY"
  else .error "Invalid analysis method. The only valid value is currently DIRECT_QUERY"

/-- Outcome of the SDK-v2 `Read` function: updated record, id cleared
(removed from state), or a diagnostics error. -/
inductive CTReadOutcome where
  | ok (record : ConfiguredTableRecord)
  | removed
  | errored
deriving DecidableEq

def CTReadOutcome.isOk : CTReadOutcome → Bool
  | .ok _ => true
  | _ => false

def CTReadOutcome.getRecord? : CTReadOutcome → Option ConfiguredTableRecord
  | .ok r => some r
  | _ => none

/-- `resourceConfiguredTableRead` (tenant.go lines 665-693).  On a finder
error: state is removed only when the resource is not new and
`tfresource.NotFound` matches (it never does here, because
`findConfiguredTableByID` returns raw transport errors); otherwise a
diagnostics error.  On success the record's `arn`, `name`, `description`,
`allowed_columns`, `analysis_method`, `create_time` and `table_reference`
are set from the remote object — `update_time` is never set. -/
def resourceConfiguredTableRead (remote : List ConfiguredTable) (id : String)
    (record : ConfiguredTableRecord) (isNewResource : Bool) : CTReadOutcome :=
  match findConfiguredTableByID (getConfiguredTableServer remote id) with
  | .error e =>
      if !isNewResource && tfresourceNotFound e then .removed
      else .errored
  | .ok out =>
      match out.configuredTable with
      | none => .errored
      | some t =>
          .ok { record with
                  arn := t.arn,
                  name := t.name,
                  description := awsToString t.description,
                  allowedColumns := t.allowedColumns,
                  analysisMethod := t.analysisMethod,
                  createTime := t.createTime,
                  tableReference := flattenTableReference t.tableReference }

/-- `cleanrooms.UpdateConfiguredTableInput`: the only settable request
fields besides the identifier are `Description` and `Name` — the immutable
(ForceNew) attributes `allowed_columns` and `table_reference` have no
counterpart in the update payload at all. -/
structure UpdateConfiguredTableInput where
  configuredTableIdentifier : String
  description : Option String
  name : Option String
deriving DecidableEq

/-- The update-request construction inside `resourceConfiguredTableUpdate`
(tenant.go lines 700-710): identifier always, `Description` only when
`d.HasChanges` reports a description change, `Name` only when it reports a
name change. -/
def buildUpdateConfiguredTableInput (d : ResourceData) :
    UpdateConfiguredTableInput :=
  { configuredTableIdentifier := d.id,
    description := if hasChangeDescription d then some d.newState.description else none,
    name := if hasChangeName d then some d.newState.name else none }

/-- Replace the two immutable (ForceNew) attributes — `allowed_columns` and
`table_reference` — in both the prior and the desired record, leaving every
other field alone. -/
def withImmutableFields (d : ResourceData) (c1 c2 : List String)
    (t1 t2 : List TableReferenceElem) : ResourceData :=
  { d with
      oldState := { d.oldState with allowedColumns := c1, tableReference := t1 },
      newState := { d.newState with allowedColumns := c2, tableReference := t2 } }

/-- A remote API call issued by the Configured Table update path. -/
inductive RemoteCall where
  | updateConfiguredTable (input : UpdateConfiguredTableInput)
  | getConfiguredTable (id : String)
deriving DecidableEq

def RemoteCall.isUpdateCall : RemoteCall → Bool
  | .updateConfiguredTable _ => true
  | .getConfiguredTable _ => false

/-- The remote Clean Rooms side of `UpdateConfiguredTable`: apply the
request to an existing table (set the fields present in the payload),
typed not-found exception for a missing id. -/
def updateConfiguredTableServer (remote : List ConfiguredTable)
    (input : UpdateConfiguredTableInput) :
    Except AWSError Unit × List ConfiguredTable :=
  if remote.any (fun t => t.id == input.configuredTableIdentifier) then
    (.ok (),
     remote.map (fun t =>
       if t.id == input.configuredTableIdentifier then
         { t with
             name := (input.name).getD t.name,
             description := match input.description with
               | some v => some v
               | none => t.description }
       else t))
  else
    (.error .notFoundException, remote)

/-- Outcome of the SDK-v2 `Update` function. -/
inductive CTUpdateOutcome where
  | ok (record : ConfiguredTableRecord)
  | removed
  | errored
deriving DecidableEq

def readToUpdateOutcome : CTReadOutcome → CTUpdateOutcome
  | .ok r => .ok r
  | .removed => .removed
  | .errored => .errored

/-- `resourceConfiguredTableUpdate` (tenant.go lines 695-719), returning the
outcome together with the list of remote API calls issued, in order.  When
`HasChangesExcept("tags", "tags_all")` holds, the update request is built
and `UpdateConfiguredTable` called (an error there returns immediately);
in every non-error path the function ends by calling
`resourceConfiguredTableRead`, which issues a `GetConfiguredTable` call. -/
def resourceConfiguredTableUpdate (remote : List ConfiguredTable)
    (d : ResourceData) : CTUpdateOutcome × List RemoteCall :=
  if hasChangesExceptTags d then
    let input := buildUpdateConfiguredTableInput d
    let step := updateConfiguredTableServer remote input
    match step.1 with
    | .error _ => (.errored, [.updateConfiguredTable input])
    | .ok _ =>
        (readToUpdateOutcome
           (resourceConfiguredTableRead step.2 d.id d.newState false),
         [.updateConfiguredTable input, .getConfiguredTable d.id])
  else
    (readToUpdateOutcome
       (resourceConfiguredTableRead remote d.id d.newState false),
     [.getConfiguredTable d.id])

/-- `cleanrooms.CreateConfiguredTableOutput` with its pointer field. -/
structure CreateConfiguredTableOutput where
  configuredTable : Option ConfiguredTable
deriving DecidableEq

/-- Outcome of `resourceConfiguredTableCreate` response handling: only `.ok`
carries the id written to state with `d.SetId` (every error path returns a
diagnostics error before `d.SetId`). -/
inductive CTCreateOutcome where
  | ok (id : String)
  | errored
deriving DecidableEq

/-- The response handling of `resourceConfiguredTableCreate` (tenant.go
lines 652-662) as a function of the `CreateConfiguredTable` response
(`.ok none` is a nil output pointer): a call error, nil output, or nil
`ConfiguredTable` yields a diagnostics error without setting the id;
otherwise the id from the output is written to state. -/
def resourceConfiguredTableCreate
    (resp : Except AWSError (Option CreateConfiguredTableOutput)) :
    CTCreateOutcome :=
  match resp with
  | .error _ => .errored
  | .ok none => .errored
  | .ok (some out) =>
      match out.configuredTable with
      | none => .errored
      | some t => .ok t.id

/-- `resourceConfiguredTableDelete` (tenant.go lines 721-734) as a function
of the `DeleteConfiguredTable` response: any error — the typed not-found
transport error included — becomes a diagnostics error; there is no
not-found special case here. -/
def resourceConfiguredTableDelete (resp : Except AWSError Unit) :
    DeleteOutcome :=
  match resp with
  | .ok _ => .ok
  | .error _ => .errored

/-- The remote Clean Rooms side of `DeleteConfiguredTable`. -/
def deleteConfiguredTableServer (remote : List ConfiguredTable) (id : String) :
    Except AWSError Unit × List ConfiguredTable :=
  if remote.any (fun t => t.id == id) then
    (.ok (), remote.filter (fun t => t.id != id))
  else
    (.error .notFoundException, remote)

/-- Two `resourceConfiguredTableDelete` calls in sequence against the same
remote side. -/
def configuredTableDeleteTwice (remote : List ConfiguredTable) (id : String) :
    DeleteOutcome × DeleteOutcome :=
  let r1 := deleteConfiguredTableServer remote id
  let first := resourceConfiguredTableDelete r1.1
  let r2 := deleteConfiguredTableServer r1.2 id
  (first, resourceConfiguredTableDelete r2.1)

/-- `schema.ImportStatePassthroughContext` (tenant.go lines 559-561) sets
only the id; the engine then runs Read on an otherwise empty record. -/
def configuredTableImportThenRead (remote : List ConfiguredTable)
    (importId : String) : CTReadOutcome :=
  resourceConfiguredTableRead remote importId emptyConfiguredTableRecord false

/-- One attribute declaration of the SDK-v2 schema, with the flags the
claims refer to. -/
structure SchemaAttribute where
  required : Bool := false
  optional : Bool := false
  computed : Bool := false
  forceNew : Bool := false
  minItems : Option Nat := none
  maxItems : Option Nat := none
deriving DecidableEq

/-- The Configured Table schema (tenant.go lines 569-624), attribute by
attribute. -/
def configuredTableSchema : List (String × SchemaAttribute) :=
  [ ("allowed_columns",
      { required := true, forceNew := true, minItems := some 1, maxItems := some 225 }),
    ("analysis_method", { required := true }),
    ("arn", { computed := true }),
    ("create_time", { computed := true }),
    ("description", { optional := true }),
    ("name", { required := true }),
    ("table_reference", { required := true, forceNew := true, maxItems := some 1 }),
    ("tags", { optional := true }),
    ("tags_all", { optional := true, computed := true }),
    ("update_time", { computed := true }) ]

/-- Look an attribute up in the schema by name. -/
def schemaAttribute (name : String) : Option SchemaAttribute :=
  (configuredTableSchema.find? (fun p => p.1 == name)).map Prod.snd

end ConfiguredTableAdapter

namespace TenantAdapter

/-- `sweepTenants` (tenant.go lines 504-524) as a function of the sequence
of page fetches the paginator performs (in order, each either a page of
tenants or a fetch error), mirroring the Go loop with its accumulator: a
page error returns `nil, err` at once — the handles accumulated from
earlier pages are discarded; otherwise one deletable handle is appended per
listed tenant, keyed by `aws.ToString(v.TenantId)`. -/
def sweepTenantsLoop (acc : List String)
    (pages : List (Except AWSError (List Tenant))) :
    Except AWSError (List String) :=
  match pages with
  | [] => .ok acc
  | .error e :: _ => .error e
  | .ok ts :: rest =>
      sweepTenantsLoop (acc ++ ts.map (fun t => awsToString t.tenantId)) rest

def sweepTenants (pages : List (Except AWSError (List Tenant))) :
    Except AWSError (List String) :=
  sweepTenantsLoop [] pages

/-- The handles a fully successful enumeration produces: one id per listed
tenant, in page order. -/
def listedTenantIds : List (Except AWSError (List Tenant)) → List String
  | [] => []
  | .error _ :: rest => listedTenantIds rest
  | .ok ts :: rest => ts.map (fun t => awsToString t.tenantId) ++ listedTenantIds rest

/-- The first page-fetch error of the sequence, if any. -/
def firstPageError : List (Except AWSError (List Tenant)) → Option AWSError
  | [] => none
  | .error e :: _ => some e
  | .ok _ :: rest => firstPageError rest

/-- Total number of items over the pages (the K of the claim). -/
def pageItemCount : List (Except AWSError (List Tenant)) → Nat
  | [] => 0
  | .error _ :: rest => pageItemCount rest
  | .ok ts :: rest => ts.length + pageItemCount rest

end TenantAdapter

namespace Fixtures

open TenantAdapter ConfiguredTableAdapter

/-- A concrete remote tenant used by the concrete evaluations. -/
def sampleTenant : Tenant :=
  { tenantName := some "t1", tenantId := some "id-1",
    tenantArn := some "arn:aws:ses:eu-west-1:123456789012:tenant/id-1",
    createdTimestamp := some ⟨2024, 1, 1, 0, 0, 0⟩,
    sendingStatus := some "ENABLED" }

/-- A concrete remote configured table used by the concrete evaluations. -/
def sampleTable : ConfiguredTable :=
  { id := "ct-1",
    arn := "arn:aws:cleanrooms:eu-west-1:123456789012:configuredtable/ct-1",
    name := "orders", description := some "orders table",
    allowedColumns := ["a", "b"], analysisMethod := "DIRECT_QUERY",
    createTime := "2024-01-01T00:00:00Z",
    updateTime := "2025-06-30T12:00:00Z",
    tableReference := some ⟨"db", "orders_raw"⟩ }

/-- A local record whose computed fields are stale relative to
`sampleTable`. -/
def staleRecord : ConfiguredTableRecord :=
  { emptyConfiguredTableRecord with
      name := "orders", analysisMethod := "DIRECT_QUERY",
      allowedColumns := ["a", "b"],
      tableReference := [⟨"db", "orders_raw"⟩],
      createTime := "1999-01-01T00:00:00Z",
      updateTime := "1999-01-01T00:00:00Z",
      arn := "stale-arn" }

/-- A diff in which only the `tags` attribute changed. -/
def tagsOnlyDiff : ResourceData :=
  { id := "ct-1", oldState := staleRecord,
    newState := { staleRecord with tags := [("env", "prod")] } }

/-- The record a successful Read of `sampleTable` produces from
`staleRecord`: every mapped field refreshed, `update_time` untouched. -/
def refreshedRecord : ConfiguredTableRecord :=
  { staleRecord with
      arn := sampleTable.arn,
      name := sampleTable.name,
      description := awsToString sampleTable.description,
      allowedColumns := sampleTable.allowedColumns,
      analysisMethod := sampleTable.analysisMethod,
      createTime := sampleTable.createTime,
      tableReference := flattenTableReference sampleTable.tableReference }

/-- Plan of the spec's end-to-end Create example: only `tenant_name` set. -/
def examplePlan : resourceTenantModel :=
  { emptyTenantModel with tenantName := some "t1" }

/-- Remote response of the spec's end-to-end Create example. -/
def exampleCreateOutput : CreateTenantOutput :=
  { tenantName := none, tenantId := some "id-1",
    tenantArn := some "arn:...:tenant/id-1",
    createdTimestamp := some ⟨2024, 1, 1, 0, 0, 0⟩,
    sendingStatus := none }

/-- A create response that reported success but carries no identifier. -/
def identifierlessCreateOutput : CreateTenantOutput :=
  { tenantName := none, tenantId := none, tenantArn := none,
    createdTimestamp := none, sendingStatus := none }

end Fixtures

section Claims

open TenantAdapter ConfiguredTableAdapter Fixtures

/-- Helper: in the fault-free remote model every `DeleteTenant` response —
success or the typed not-found exception — is handled to success by
`resourceTenant.Delete`. -/
theorem tenantDelete_server_ok (remote : List Tenant) (name : String) :
    resourceTenantDelete (deleteTenantServer remote name).1 = DeleteOutcome.ok := by
  unfold deleteTenantServer resourceTenantDelete
  by_cases h : remote.any (fun t => awsToString t.tenantName == name)
  · simp [h]
  · simp [h, isNotFoundException]

/-- C1: the claim states that Read of a non-existent identifier always
signals NotFound, removing the local record, and never yields any other
error kind.  Evaluating the code at the failing inputs: the Tenant Read
panics (the debug `fmt.Printf` at tenant.go line 167 dereferences the nil
finder result before the not-found check runs), and the Configured Table
Read returns a generic diagnostics error instead of removing the record
(`findConfiguredTableByID` passes the transport not-found error through
untranslated, so `tfresource.NotFound` never matches). -/
theorem c1_read_missing_evidence :
    resourceTenantRead [] { emptyTenantModel with tenantName := some "ghost" }
        = TenantReadOutcome.crashed
    ∧ resourceConfiguredTableRead [] "missing" emptyConfiguredTableRecord false
        = CTReadOutcome.errored := by decide

/-- C2 counterexample: against a remote holding exactly `sampleTable`,
deleting the Configured Table twice succeeds on the first call and fails on
the second — `resourceConfiguredTableDelete` propagates the not-found error
instead of treating it as success, so Delete is not idempotent for both
resources as claimed. -/
theorem c2_counterexample :
    (configuredTableDeleteTwice [sampleTable] "ct-1").1 = DeleteOutcome.ok
    ∧ (configuredTableDeleteTwice [sampleTable] "ct-1").2 = DeleteOutcome.errored := by
  decide

/-- C2 amended: the Tenant Delete treats the remote not-found error as
success, so a second Tenant Delete in sequence always succeeds; the
Configured Table Delete propagates every error, the not-found one included,
so its second delete fails. -/
theorem c2_amended_delete :
    (∀ (remote : List Tenant) (name : String),
        (tenantDeleteTwice remote name).2 = DeleteOutcome.ok)
    ∧ (∀ e, isNotFoundException e = true →
        resourceTenantDelete (Except.error e) = DeleteOutcome.ok)
    ∧ resourceConfiguredTableDelete (Except.error AWSError.notFoundException)
        = DeleteOutcome.errored := by
  refine ⟨?_, ?_, by decide⟩
  · intro remote name
    exact tenantDelete_server_ok (deleteTenantServer remote name).2 name
  · intro e h
    cases e with
    | notFoundException => decide
    | serviceError m => simp [isNotFoundException] at h

/-- C2 witness: the amended theorem applied at the typed not-found error. -/
theorem c2_amended_delete_witness :
    resourceTenantDelete (Except.error AWSError.notFoundException) = DeleteOutcome.ok :=
  c2_amended_delete.2.1 AWSError.notFoundException (by decide)

/-- C3: the claim states that import by the stable identifier alone lets the
subsequent Read find the resource, for both resources.  Evaluating the code:
importing the existing tenant `sampleTenant` by its id `id-1` leaves
`tenant_name` null, so the next Read calls `GetTenant` with an empty name,
gets the not-found error and crashes at the debug dereference — while the
Configured Table import (passthrough into the id the Read keys by) does
succeed. -/
theorem c3_import_read_evidence :
    tenantImportThenRead [sampleTenant] "id-1" = TenantReadOutcome.crashed
    ∧ (configuredTableImportThenRead [sampleTable] "ct-1").isOk = true := by decide

/-- C4 counterexample: after a successful Configured Table Read of
`sampleTable` the record still holds the stale `update_time`
`1999-01-01T00:00:00Z` although the remote value is
`2025-06-30T12:00:00Z` (the Read never sets `update_time`); and after a
successful Tenant Read the record's `arn` is still null although the remote
tenant has an ARN (the unprefixed flatten drops `TenantArn`). -/
theorem c4_counterexample :
    Option.map ConfiguredTableRecord.updateTime
        (resourceConfiguredTableRead [sampleTable] "ct-1" staleRecord false).getRecord?
      = some "1999-01-01T00:00:00Z"
    ∧ sampleTable.updateTime = "2025-06-30T12:00:00Z"
    ∧ Option.map resourceTenantModel.arn
        (resourceTenantRead [sampleTenant]
            { emptyTenantModel with tenantName := some "t1" }).getState?
      = some none
    ∧ sampleTenant.tenantArn
      = some "arn:aws:ses:eu-west-1:123456789012:tenant/id-1" := by decide

/-- C4 amended: after a successful Configured Table Read, `arn` and
`create_time` equal the remote values but `update_time` is never written
and keeps its prior value; after a successful Tenant Read,
`created_timestamp` is the RFC3339 rendering of the remote timestamp but
`arn` and `id` keep their prior values. -/
theorem c4_amended_read_fields :
    (∀ (remote : List ConfiguredTable) (t : ConfiguredTable) (id : String)
        (r0 r : ConfiguredTableRecord),
        remote.find? (fun x => x.id == id) = some t →
        resourceConfiguredTableRead remote id r0 false = CTReadOutcome.ok r →
        r.arn = t.arn ∧ r.createTime = t.createTime ∧ r.updateTime = r0.updateTime)
    ∧ (∀ (remote : List Tenant) (t : Tenant) (s0 s1 : resourceTenantModel),
        remote.find? (fun u => awsToString u.tenantName == valueString s0.tenantName)
          = some t →
        resourceTenantRead remote s0 = TenantReadOutcome.ok s1 →
        s1.createdTimestamp = some (formatRFC3339 (awsToTime t.createdTimestamp))
        ∧ s1.arn = s0.arn ∧ s1.id = s0.id) := by
  constructor
  · intro remote t id r0 r hfind hread
    unfold resourceConfiguredTableRead getConfiguredTableServer at hread
    rw [hfind] at hread
    simp only [findConfiguredTableByID, CTReadOutcome.ok.injEq] at hread
    subst hread
    exact ⟨rfl, rfl, rfl⟩
  · intro remote t s0 s1 hfind hread
    unfold resourceTenantRead getTenantServer at hread
    rw [hfind] at hread
    simp only [FindTenantByName] at hread
    cases htn : t.tenantName with
    | none => rw [htn] at hread; exact absurd hread (by simp)
    | some n =>
        rw [htn] at hread
        simp only [TenantReadOutcome.ok.injEq] at hread
        subst hread
        exact ⟨rfl, rfl, rfl⟩

/-- C4 witness: the amended theorem applied to `sampleTable` over
`staleRecord`. -/
theorem c4_amended_read_fields_witness :
    refreshedRecord.arn = sampleTable.arn
    ∧ refreshedRecord.createTime = sampleTable.createTime
    ∧ refreshedRecord.updateTime = staleRecord.updateTime :=
  c4_amended_read_fields.1 [sampleTable] sampleTable "ct-1" staleRecord
    refreshedRecord (by decide) (by decide)

/-- C5 counterexample: for `tagsOnlyDiff`, where only `tags` changed, Update
still issues a remote call — the `GetConfiguredTable` of the unconditional
re-read — so "no remote API call at all" fails. -/
theorem c5_counterexample :
    (resourceConfiguredTableUpdate [sampleTable] tagsOnlyDiff).2
        = [RemoteCall.getConfiguredTable "ct-1"]
    ∧ (resourceConfiguredTableUpdate [sampleTable] tagsOnlyDiff).2 ≠ [] := by decide

/-- C5 amended: when only `tags`/`tags_all` changed, Update issues no
`UpdateConfiguredTable` call — the only remote call it performs is the
`GetConfiguredTable` of the re-read. -/
theorem c5_amended_no_update_call (remote : List ConfiguredTable)
    (d : ResourceData) (h : hasChangesExceptTags d = false) :
    (resourceConfiguredTableUpdate remote d).2 = [RemoteCall.getConfiguredTable d.id]
    ∧ ∀ c ∈ (resourceConfiguredTableUpdate remote d).2, c.isUpdateCall = false := by
  have he : (resourceConfiguredTableUpdate remote d).2
      = [RemoteCall.getConfiguredTable d.id] := by
    unfold resourceConfiguredTableUpdate
    simp [h]
  refine ⟨he, ?_⟩
  rw [he]
  intro c hc
  simp only [List.mem_singleton] at hc
  subst hc
  rfl

/-- C5 witness: the amended theorem applied to the tags-only diff. -/
theorem c5_amended_no_update_call_witness :
    (resourceConfiguredTableUpdate [sampleTable] tagsOnlyDiff).2
      = [RemoteCall.getConfiguredTable tagsOnlyDiff.id] :=
  (c5_amended_no_update_call [sampleTable] tagsOnlyDiff (by decide)).1

/-- C6: the update payload carries the identifier, carries `Description`
exactly when the description changed (and then the desired value), carries
`Name` exactly when the name changed (and then the desired value), and is
entirely independent of the immutable (ForceNew) attributes
`allowed_columns` and `table_reference` — which the payload type cannot even
express — however they differ between desired and previous state. -/
theorem c6_update_payload (d : ResourceData) :
    (buildUpdateConfiguredTableInput d).configuredTableIdentifier = d.id
    ∧ ((buildUpdateConfiguredTableInput d).description ≠ none ↔
        d.oldState.description ≠ d.newState.description)
    ∧ ((buildUpdateConfiguredTableInput d).description = none ∨
        (buildUpdateConfiguredTableInput d).description = some d.newState.description)
    ∧ ((buildUpdateConfiguredTableInput d).name ≠ none ↔
        d.oldState.name ≠ d.newState.name)
    ∧ ((buildUpdateConfiguredTableInput d).name = none ∨
        (buildUpdateConfiguredTableInput d).name = some d.newState.name)
    ∧ (∀ (c1 c2 : List String) (t1 t2 : List TableReferenceElem),
        buildUpdateConfiguredTableInput (withImmutableFields d c1 c2 t1 t2)
          = buildUpdateConfiguredTableInput d)
    ∧ Option.map SchemaAttribute.forceNew (schemaAttribute "allowed_columns") = some true
    ∧ Option.map SchemaAttribute.forceNew (schemaAttribute "table_reference") = some true := by
  refine ⟨rfl, ?_, ?_, ?_, ?_, ?_, by decide, by decide⟩
  · by_cases h : d.oldState.description = d.newState.description <;>
      simp [buildUpdateConfiguredTableInput, hasChangeDescription, h]
  · by_cases h : d.oldState.description = d.newState.description <;>
      simp [buildUpdateConfiguredTableInput, hasChangeDescription, h]
  · by_cases h : d.oldState.name = d.newState.name <;>
      simp [buildUpdateConfiguredTableInput, hasChangeName, h]
  · by_cases h : d.oldState.name = d.newState.name <;>
      simp [buildUpdateConfiguredTableInput, hasChangeName, h]
  · intro c1 c2 t1 t2
    simp [buildUpdateConfiguredTableInput, hasChangeDescription, hasChangeName,
      withImmutableFields]

/-- Helper: a run of the sweep loop over error-free pages appends one handle
per listed tenant to the accumulator. -/
theorem sweepTenantsLoop_ok (pages : List (Except AWSError (List Tenant))) :
    ∀ acc, firstPageError pages = none →
      sweepTenantsLoop acc pages = Except.ok (acc ++ listedTenantIds pages) := by
  induction pages with
  | nil => intro acc _; simp [sweepTenantsLoop, listedTenantIds]
  | cons p rest ih =>
      intro acc h
      cases p with
      | error e => simp [firstPageError] at h
      | ok ts =>
          simp only [firstPageError] at h
          simp only [sweepTenantsLoop, listedTenantIds]
          rw [ih _ h, List.append_assoc]

/-- Helper: a run of the sweep loop hitting a page error returns that error,
whatever was already accumulated. -/
theorem sweepTenantsLoop_error (pages : List (Except AWSError (List Tenant))) :
    ∀ acc e, firstPageError pages = some e →
      sweepTenantsLoop acc pages = Except.error e := by
  induction pages with
  | nil => intro acc e h; simp [firstPageError] at h
  | cons p rest ih =>
      intro acc e h
      cases p with
      | error e2 =>
          simp only [firstPageError, Option.some.injEq] at h
          subst h
          rfl
      | ok ts =>
          simp only [firstPageError] at h
          simp only [sweepTenantsLoop]
          exact ih _ e h

/-- Helper: the enumeration yields exactly as many handles as there are
items on the (successful) pages. -/
theorem listedTenantIds_length (pages : List (Except AWSError (List Tenant))) :
    (listedTenantIds pages).length = pageItemCount pages := by
  induction pages with
  | nil => rfl
  | cons p rest ih =>
      cases p with
      | error e => simpa [listedTenantIds, pageItemCount] using ih
      | ok ts => simp [listedTenantIds, pageItemCount, ih]

/-- C7: over pages whose item counts sum to K, the sweep enumeration returns
exactly K deletable handles, one per listed tenant keyed by its `TenantId`
(in page order); and as soon as any page fetch fails the enumeration returns
that error with no handles — the items collected from earlier pages are
discarded (the Go code returns `nil, err`). -/
theorem c7_sweep_enumeration (pages : List (Except AWSError (List Tenant))) :
    (firstPageError pages = none →
      sweepTenants pages = Except.ok (listedTenantIds pages)
      ∧ (listedTenantIds pages).length = pageItemCount pages)
    ∧ (∀ e, firstPageError pages = some e →
        sweepTenants pages = Except.error e) := by
  constructor
  · intro h
    refine ⟨?_, listedTenantIds_length pages⟩
    have := sweepTenantsLoop_ok pages [] h
    simpa [sweepTenants] using this
  · intro e h
    exact sweepTenantsLoop_error pages [] e h

/-- C7 witness: two successful pages with 1 and 2 items give the 3 listed
ids; a failing second page gives the error, not a partial list. -/
theorem c7_sweep_enumeration_witness :
    (sweepTenants [Except.ok [sampleTenant],
        Except.ok [sampleTenant, sampleTenant]]
      = Except.ok (listedTenantIds [Except.ok [sampleTenant],
          Except.ok [sampleTenant, sampleTenant]]))
    ∧ sweepTenants [Except.ok [sampleTenant],
        Except.error (AWSError.serviceError "boom")]
      = Except.error (AWSError.serviceError "boom") :=
  ⟨((c7_sweep_enumeration _).1 (by decide)).1,
   (c7_sweep_enumeration _).2 _ (by decide)⟩

/-- C8: a create response that reported success but is nil, or carries no
identifier (nil `TenantId`, nil `ConfiguredTable`), makes Create fail with
the empty-output error; the error outcome carries no record, so nothing is
written to state (the Go code returns before `resp.State.Set` and before
`d.SetId`). -/
theorem c8_empty_output_create :
    (∀ plan, resourceTenantCreate (Except.ok none) plan
        = TenantCreateOutcome.errored "empty output")
    ∧ (∀ plan out, out.tenantId = none →
        resourceTenantCreate (Except.ok (some out)) plan
          = TenantCreateOutcome.errored "empty output")
    ∧ resourceConfiguredTableCreate (Except.ok none) = CTCreateOutcome.errored
    ∧ (∀ out : CreateConfiguredTableOutput, out.configuredTable = none →
        resourceConfiguredTableCreate (Except.ok (some out))
          = CTCreateOutcome.errored) := by
  refine ⟨fun plan => rfl, ?_, rfl, ?_⟩
  · intro plan out h
    simp only [resourceTenantCreate, h]
  · intro out h
    simp only [resourceConfiguredTableCreate, h]

/-- C8 witness: the theorem applied to concrete identifier-less outputs. -/
theorem c8_empty_output_create_witness :
    resourceTenantCreate (Except.ok (some identifierlessCreateOutput)) emptyTenantModel
      = TenantCreateOutcome.errored "empty output"
    ∧ resourceConfiguredTableCreate (Except.ok (some ⟨none⟩)) = CTCreateOutcome.errored :=
  ⟨c8_empty_output_create.2.1 emptyTenantModel identifierlessCreateOutput rfl,
   c8_empty_output_create.2.2.2 ⟨none⟩ rfl⟩

/-- C9: the spec's end-to-end Create example — plan with `tenant_name` "t1",
remote response with `TenantId` "id-1", `TenantArn` "arn:...:tenant/id-1"
and `CreatedTimestamp` 2024-01-01T00:00:00Z — saves a record with id
"id-1", arn "arn:...:tenant/id-1", created_timestamp
"2024-01-01T00:00:00Z" (RFC3339) and tenant_name "t1" unchanged. -/
theorem c9_create_example :
    resourceTenantCreate (Except.ok (some exampleCreateOutput)) examplePlan
      = TenantCreateOutcome.ok
          { examplePlan with
              id := some "id-1",
              arn := some "arn:...:tenant/id-1",
              createdTimestamp := some "2024-01-01T00:00:00Z" } := by decide

/-- C10: `expandTableReference` reads the head of its input unconditionally:
on any non-empty list it returns the Glue reference built from the first
element, on the empty list it has no defined result (the Go code panics with
an out-of-range index) — and the schema declares no minimum item count for
`table_reference` (unlike `allowed_columns`, which carries `MinItems 1`), so
the empty list is not ruled out at schema level. -/
theorem c10_expand_table_reference :
    (∀ (x : TableReferenceElem) (rest : List TableReferenceElem),
        expandTableReference (x :: rest)
          = some ⟨x.databaseName, x.tableName⟩)
    ∧ expandTableReference ([] : List TableReferenceElem) = none
    ∧ Option.map SchemaAttribute.minItems (schemaAttribute "table_reference")
        = some none
    ∧ Option.map SchemaAttribute.minItems (schemaAttribute "allowed_columns")
        = some (some 1) := by
  refine ⟨fun x rest => rfl, rfl, by decide, by decide⟩

end Claims
